import Mathlib

/-!
Shallow embedding of NoIdea_OS (src/sync.rs, src/memory/paging.rs,
src/interrupts/mod.rs) and verification of its specification claims.

Panics (`assert_eq!`, `expect`, `panic!`) are modelled by `Except.error`
carrying the panic message; normal returns are `Except.ok` (or plain
values when the function cannot panic).
-/

namespace NoIdeaOS

/-! ## src/sync.rs -/

/-- Rust `crate::processes::Name`, the identity of a process.  Its definition is
not part of the sources; it is an ordered, decidable-equality key of a
`BTreeSet`, modelled abstractly as `Nat`. -/
abbrev Name : Type := Nat

/-- Two's-complement wrap-around of an integer into the `i32` range
`[-2^31, 2^31)`, the semantics of `AtomicI32::fetch_add`/`fetch_sub` and of
release-mode `i32` arithmetic. -/
def i32wrap (x : Int) : Int := (x + 2 ^ 31) % 2 ^ 32 - 2 ^ 31

/-- Rust `Semaphore { count: AtomicI32, queue: Mutex<BTreeSet<Name>> }`.
The atomic counter is an `Int` constrained to the `i32` range where it
matters; the `BTreeSet` is a `Finset`. -/
structure Semaphore where
  count : Int
  queue : Finset Name
deriving DecidableEq

/-- Rust `Semaphore::new(count)`. -/
def Semaphore.new (count : Int) : Semaphore := ⟨count, ∅⟩

/-- Rust `Semaphore::wait`: if the counter is `<= 0` return `false`, otherwise
`fetch_sub(1)` and return `true`.  Returns the result and the new state. -/
def Semaphore.wait (s : Semaphore) : Bool × Semaphore :=
  if s.count ≤ 0 then
    (false, s)
  else
    (true, ⟨i32wrap (s.count - 1), s.queue⟩)

/-- Rust `Semaphore::signal`: `old = fetch_add(1)`, return `old + 1 >= 0`.
Both the stored counter and the compared value wrap at the `i32` bounds. -/
def Semaphore.signal (s : Semaphore) : Bool × Semaphore :=
  (decide (0 ≤ i32wrap (s.count + 1)), ⟨i32wrap (s.count + 1), s.queue⟩)

/-- Rust `Semaphore::add_to_wait_queue`:
`assert_eq!(self.queue.lock().insert(name), false, "Wait queue already has element")`.
`BTreeSet::insert` returns `true` when the element was NOT yet present (and
inserts it), so the assertion panics exactly when `name` was absent; when
`name` is already present the insert is a no-op and the assertion passes. -/
def Semaphore.add_to_wait_queue (s : Semaphore) (name : Name) : Except String Semaphore :=
  let ret : Bool := decide (name ∉ s.queue)
  let s' : Semaphore := ⟨s.count, insert name s.queue⟩
  if ret = false then Except.ok s' else Except.error ("Wait queue already has element")

/-- Rust `Semaphore::check_and_pop_if_exists`: `BTreeSet::remove` returns whether
the element was present, and removes it. -/
def Semaphore.check_and_pop_if_exists (s : Semaphore) (name : Name) : Bool × Semaphore :=
  (decide (name ∈ s.queue), ⟨s.count, s.queue.erase name⟩)

/-! ## src/memory/paging.rs -/

/-- Rust `bootloader::bootinfo::MemoryRegionType`, reduced to the variants the
sources distinguish: `Usable` is kept by the frame iterator, everything
else is filtered out. -/
inductive MemoryRegionType where
  | Usable
  | Reserved
  | Other
deriving DecidableEq

/-- Rust `bootloader::bootinfo::FrameRange`: a right-open range of 4096-byte
frame numbers. -/
structure FrameRange where
  start_frame_number : Nat
  end_frame_number : Nat
deriving DecidableEq

/-- Rust `FrameRange::start_addr() = start_frame_number * 4096`. -/
def FrameRange.start_addr (r : FrameRange) : Nat := r.start_frame_number * 4096

/-- Rust `FrameRange::end_addr() = end_frame_number * 4096`. -/
def FrameRange.end_addr (r : FrameRange) : Nat := r.end_frame_number * 4096

/-- Rust `bootloader::bootinfo::MemoryRegion`. -/
structure MemoryRegion where
  range : FrameRange
  region_type : MemoryRegionType
deriving DecidableEq

/-- Rust `bootloader::bootinfo::MemoryMap`: an ordered collection of regions
(`iter()` yields them in this order). -/
structure MemoryMap where
  regions : List MemoryRegion
deriving DecidableEq

/-- Rust `(start..stop).step_by(4096)`: the addresses
`start, start + 4096, start + 2*4096, …` strictly below `stop`. -/
def stepBy4096 (start stop : Nat) : List Nat :=
  (List.range ((stop - start + 4095) / 4096)).map (fun i => start + 4096 * i)

/-- Rust `PhysFrame::containing_address(addr)`, identified with its start
address: round `addr` down to a multiple of 4096. -/
def containing_address (addr : Nat) : Nat := addr / 4096 * 4096

/-- Rust `EmptyFrameAllocator`: a unit struct. -/
structure EmptyFrameAllocator where
deriving DecidableEq

/-- Rust `EmptyFrameAllocator::allocate_frame`: always `None`, state untouched. -/
def EmptyFrameAllocator.allocate_frame (a : EmptyFrameAllocator) :
    Option Nat × EmptyFrameAllocator :=
  (none, a)

/-- Rust `BootInfoFrameAllocator { memory_map: &'static MemoryMap, next: usize }`. -/
structure BootInfoFrameAllocator where
  memory_map : MemoryMap
  next : Nat
deriving DecidableEq

/-- Rust `BootInfoFrameAllocator::init(memory_map)`. -/
def BootInfoFrameAllocator.init (memory_map : MemoryMap) : BootInfoFrameAllocator :=
  ⟨memory_map, 0⟩

/-- Rust `BootInfoFrameAllocator::usable_frames`: filter the map's regions to the
`Usable` ones, take each region's address range stepped by 4096, and turn
each address into the containing frame (identified by its start address). -/
def BootInfoFrameAllocator.usable_frames (m : MemoryMap) : List Nat :=
  (((m.regions.filter (fun r => r.region_type = MemoryRegionType.Usable)).map
      (fun r => stepBy4096 r.range.start_addr r.range.end_addr)).flatten).map
    containing_address

/-- Rust `BootInfoFrameAllocator::allocate_frame`: read the `next`-th usable
frame (`Iterator::nth`), then increment `next` unconditionally. -/
def BootInfoFrameAllocator.allocate_frame (a : BootInfoFrameAllocator) :
    Option Nat × BootInfoFrameAllocator :=
  let frame := (BootInfoFrameAllocator.usable_frames a.memory_map).get? a.next
  (frame, ⟨a.memory_map, a.next + 1⟩)

/-- The allocator state after `n` successive `allocate_frame` calls. -/
def BootInfoFrameAllocator.allocState (a : BootInfoFrameAllocator) : Nat → BootInfoFrameAllocator
  | 0 => a
  | n + 1 => ((a.allocState n).allocate_frame).2

/-- The frame returned by the `n`-th `allocate_frame` call (0-indexed). -/
def BootInfoFrameAllocator.allocResult (a : BootInfoFrameAllocator) (n : Nat) : Option Nat :=
  (((a.allocState n)).allocate_frame).1

/-! ### `_translate_addr` -/

/-- The flag state of an `x86_64` page-table entry as seen by
`PageTableEntry::frame()`: not present; present and pointing to a next-level
frame whose (masked) address is `addr`; or present with the huge-page flag. -/
inductive PTEntry where
  | notPresent
  | mapped (addr : Nat)
  | huge (addr : Nat)
deriving DecidableEq

/-- Rust `x86_64::structures::paging::page_table::FrameError`. -/
inductive FrameError where
  | FrameNotPresent
  | HugeFrame
deriving DecidableEq

/-- Rust `PageTableEntry::frame()`: `Err(FrameNotPresent)` when the entry is not
present, `Err(HugeFrame)` when it is a huge page, otherwise
`Ok(PhysFrame::containing_address(self.addr()))`. -/
def PTEntry.toFrame : PTEntry → Except FrameError Nat
  | PTEntry.notPresent => Except.error FrameError.FrameNotPresent
  | PTEntry.mapped addr => Except.ok (containing_address addr)
  | PTEntry.huge _ => Except.error FrameError.HugeFrame

/-- Physical memory as the page tables it holds: `mem t i` is entry `i` of
the page table stored in the frame starting at physical address `t`.
(The source reads the table through `physical_memory_offset + t`; the
offset mapping is the identity between that virtual window and physical
memory, so it is elided.) -/
def PhysMem : Type := Nat → Nat → PTEntry

/-- Rust `VirtAddr::p4_index`: bits 39..48 of the address. -/
def p4_index (addr : Nat) : Nat := addr / 2 ^ 39 % 512

/-- Rust `VirtAddr::p3_index`: bits 30..39 of the address. -/
def p3_index (addr : Nat) : Nat := addr / 2 ^ 30 % 512

/-- Rust `VirtAddr::p2_index`: bits 21..30 of the address. -/
def p2_index (addr : Nat) : Nat := addr / 2 ^ 21 % 512

/-- Rust `VirtAddr::p1_index`: bits 12..21 of the address. -/
def p1_index (addr : Nat) : Nat := addr / 2 ^ 12 % 512

/-- Rust `VirtAddr::page_offset`: bits 0..12 of the address. -/
def page_offset (addr : Nat) : Nat := addr % 4096

/-- The `for &index in &table_indexes` loop of `_translate_addr`: starting
from the current `frame`, look up each index in turn; `return None` on a
non-present entry, panic on a huge page. -/
def walkLoop (mem : PhysMem) : List Nat → Nat → Except String (Option Nat)
  | [], frame => Except.ok (some frame)
  | index :: rest, frame =>
    match (mem frame index).toFrame with
    | Except.ok f => walkLoop mem rest f
    | Except.error FrameError.FrameNotPresent => Except.ok none
    | Except.error FrameError.HugeFrame => Except.error ("huge pages not supported")

/-- Rust `_translate_addr(addr, physical_memory_offset)`: walk
`[p4_index, p3_index, p2_index, p1_index]` starting from the CR3 frame
(`l4_frame`), then add the page offset to the final frame's start address.
`Except.ok none` is Rust's `None` ("not mapped"); `Except.error` is the
`panic!("huge pages not supported")`. -/
def _translate_addr (mem : PhysMem) (l4_frame : Nat) (addr : Nat) :
    Except String (Option Nat) :=
  match walkLoop mem [p4_index addr, p3_index addr, p2_index addr, p1_index addr] l4_frame with
  | Except.ok (some frame) => Except.ok (some (frame + page_offset addr))
  | Except.ok none => Except.ok none
  | Except.error e => Except.error e

/-- Modelled from the spec: "`translate(address, offset)` manually walks all
four paging levels from the top-level table, following each level's index
bits, and returns the final physical address plus page offset, or reports
\"not mapped\"; reports a fatal error (not recoverable) if it encounters a
huge/large page".  The four levels are written out explicitly, one nested
lookup per level. -/
def translate_spec (mem : PhysMem) (l4_frame : Nat) (addr : Nat) :
    Except String (Option Nat) :=
  match (mem l4_frame (p4_index addr)).toFrame with
  | Except.error FrameError.HugeFrame => Except.error ("huge pages not supported")
  | Except.error FrameError.FrameNotPresent => Except.ok none
  | Except.ok t3 =>
    match (mem t3 (p3_index addr)).toFrame with
    | Except.error FrameError.HugeFrame => Except.error ("huge pages not supported")
    | Except.error FrameError.FrameNotPresent => Except.ok none
    | Except.ok t2 =>
      match (mem t2 (p2_index addr)).toFrame with
      | Except.error FrameError.HugeFrame => Except.error ("huge pages not supported")
      | Except.error FrameError.FrameNotPresent => Except.ok none
      | Except.ok t1 =>
        match (mem t1 (p1_index addr)).toFrame with
        | Except.error FrameError.HugeFrame => Except.error ("huge pages not supported")
        | Except.error FrameError.FrameNotPresent => Except.ok none
        | Except.ok frame => Except.ok (some (frame + page_offset addr))

/-! ## src/interrupts/mod.rs -/

/-- Rust `SyscallCommand`, `#[repr(u64)]`: `Yield = 10`, `Terminate = 11`. -/
inductive SyscallCommand where
  | Yield
  | Terminate
deriving DecidableEq

/-- The `TryFromPrimitive` conversion for `SyscallCommand`. -/
def SyscallCommand.try_from (n : Nat) : Option SyscallCommand :=
  if n = 10 then some SyscallCommand.Yield
  else if n = 11 then some SyscallCommand.Terminate
  else none

/-- The interface of `crate::processes::PROCESS_MANAGER` that
`internal_syscall` calls into: what `yield_current_process(stack_p)` and
`end_current_process()` report as the next stack pointer.  The process
manager's own code is outside these sources, so it is kept abstract. -/
structure ProcessManager where
  yield_current_process : Nat → Nat
  end_current_process : Nat

/-- Rust `internal_syscall(stack_p, call_num)`: convert `call_num` with
`SyscallCommand::try_from`, `expect`-panicking on failure, then dispatch to
the process manager and return the reported stack pointer. -/
def internal_syscall (pm : ProcessManager) (stack_p call_num : Nat) : Except String Nat :=
  match SyscallCommand.try_from call_num with
  | none => Except.error ("Invalid Syscall Number")
  | some SyscallCommand.Yield => Except.ok (pm.yield_current_process stack_p)
  | some SyscallCommand.Terminate => Except.ok pm.end_current_process

/-! ## Auxiliary definitions for the claims -/

instance {ε α : Type} [DecidableEq ε] [DecidableEq α] : DecidableEq (Except ε α) :=
  fun x y =>
    match x, y with
    | Except.ok a, Except.ok b =>
      if h : a = b then isTrue (h ▸ rfl) else isFalse (fun hh => h (by cases hh; rfl))
    | Except.error a, Except.error b =>
      if h : a = b then isTrue (h ▸ rfl) else isFalse (fun hh => h (by cases hh; rfl))
    | Except.ok _, Except.error _ => isFalse (fun hh => Except.noConfusion hh)
    | Except.error _, Except.ok _ => isFalse (fun hh => Except.noConfusion hh)

/-- The memory map `[{0,4096,usable},{4096,8192,reserved},{8192,16384,usable}]`
(addresses; `FrameRange` stores them as frame numbers). -/
def exampleMap : MemoryMap :=
  ⟨[⟨⟨0, 1⟩, MemoryRegionType.Usable⟩,
    ⟨⟨1, 2⟩, MemoryRegionType.Reserved⟩,
    ⟨⟨2, 4⟩, MemoryRegionType.Usable⟩]⟩

/-- A memory map whose usable regions are out of address order:
`[{8192,16384,usable},{0,4096,usable}]`. -/
def unorderedMap : MemoryMap :=
  ⟨[⟨⟨2, 4⟩, MemoryRegionType.Usable⟩,
    ⟨⟨0, 1⟩, MemoryRegionType.Usable⟩]⟩

/-- The usable regions of the map appear in increasing, non-overlapping
address order (each one ends no later than every later one starts), as the
bootloader provides them. -/
def MemoryMap.sortedUsable (m : MemoryMap) : Prop :=
  (m.regions.filter (fun r => r.region_type = MemoryRegionType.Usable)).Pairwise
    (fun r r' => r.range.end_frame_number ≤ r'.range.start_frame_number)

instance (m : MemoryMap) : Decidable m.sortedUsable := by
  unfold MemoryMap.sortedUsable
  infer_instance

/-! ## Helper lemmas -/

theorem i32wrap_eq_self {x : Int} (hlo : -(2 ^ 31) ≤ x) (hhi : x < 2 ^ 31) :
    i32wrap x = x := by
  unfold i32wrap
  have h1 : 0 ≤ x + 2 ^ 31 := by omega
  have h2 : x + 2 ^ 31 < 2 ^ 32 := by omega
  rw [Int.emod_eq_of_lt h1 h2]
  omega

/-! ## Claims -/

/-- C1: `internal_syscall` returns the process manager's
`yield_current_process(sp)` stack pointer for syscall number 10, its
`end_current_process()` stack pointer for 11, and panics
(`expect("Invalid Syscall Number")`) on every other number — there is no
error-return path. -/
theorem C1_syscall_dispatch (pm : ProcessManager) (sp : Nat) :
    internal_syscall pm sp 10 = Except.ok (pm.yield_current_process sp) ∧
    internal_syscall pm sp 11 = Except.ok pm.end_current_process ∧
    (∀ n : Nat, n ≠ 10 → n ≠ 11 →
      internal_syscall pm sp n = Except.error ("Invalid Syscall Number")) := by
  refine ⟨rfl, rfl, fun n h10 h11 => ?_⟩
  unfold internal_syscall SyscallCommand.try_from
  rw [if_neg h10, if_neg h11]

theorem C1_syscall_dispatch_witness :
    internal_syscall ⟨fun sp => sp + 1, 77⟩ 5 12 = Except.error ("Invalid Syscall Number") :=
  (C1_syscall_dispatch ⟨fun sp => sp + 1, 77⟩ 5).2.2 12 (by decide) (by decide)

/-- C2: the code contradicts the claim (and its own panic message).
`add_to_wait_queue` asserts that `BTreeSet::insert` returned `false`, but
`insert` returns `true` exactly when the element was NOT yet present; so
inserting a fresh identity into an empty wait queue panics, while
inserting a duplicate passes the assertion and leaves the queue
unchanged. -/
theorem C2_add_to_wait_queue_bug :
    Semaphore.add_to_wait_queue ⟨1, ∅⟩ 0 = Except.error ("Wait queue already has element") ∧
    Semaphore.add_to_wait_queue ⟨1, {0}⟩ 0 = Except.ok ⟨1, {0}⟩ := by
  constructor
  · decide
  · decide

/-- C5 counterexample: `signal()` does not always increment the counter by
one: on a semaphore whose counter is `i32::MAX = 2^31 - 1`, the wrapping
`fetch_add` leaves the counter at `i32::MIN = -2^31`, not at `2^31`. -/
theorem C5_signal_overflow_counterexample :
    ¬ ((Semaphore.signal ⟨2 ^ 31 - 1, ∅⟩).2.count = (2 ^ 31 - 1) + 1) ∧
    (Semaphore.signal ⟨2 ^ 31 - 1, ∅⟩).2.count = -(2 ^ 31) := by
  constructor
  · decide
  · decide

/-- C5 (amended): for a semaphore whose counter is in the `i32` range:
`new(1).wait()` returns acquired leaving the counter 0, a second `wait()`
on counter 0 returns not-acquired without mutating state, and a
subsequent `signal()` restores the counter to 1 reporting non-negative;
in general `wait()` on a non-positive counter returns `false` without
mutating state, `wait()` on a positive counter decrements it by 1 and
returns `true`, and `signal()` increments the counter by 1 — wrapping to
`-2^31` when the counter is `2^31 - 1` — and returns whether the resulting
(wrapped) count is non-negative. -/
theorem C5_semaphore_wait_signal (s : Semaphore)
    (hlo : -(2 ^ 31) ≤ s.count) (hhi : s.count < 2 ^ 31) :
    (Semaphore.new 1).wait = (true, ⟨0, ∅⟩) ∧
    (Semaphore.mk 0 ∅).wait = (false, ⟨0, ∅⟩) ∧
    (Semaphore.mk 0 ∅).signal = (true, ⟨1, ∅⟩) ∧
    (s.count ≤ 0 → s.wait = (false, s)) ∧
    (0 < s.count → s.wait = (true, ⟨s.count - 1, s.queue⟩)) ∧
    (s.count < 2 ^ 31 - 1 →
      s.signal = (decide (0 ≤ s.count + 1), ⟨s.count + 1, s.queue⟩)) ∧
    (s.count = 2 ^ 31 - 1 → s.signal = (false, ⟨-(2 ^ 31), s.queue⟩)) := by
  refine ⟨by decide, by decide, by decide, ?_, ?_, ?_, ?_⟩
  · intro h
    unfold Semaphore.wait
    rw [if_pos h]
  · intro h
    unfold Semaphore.wait
    rw [if_neg (not_le.mpr h), i32wrap_eq_self (by omega) (by omega)]
  · intro h
    unfold Semaphore.signal
    rw [i32wrap_eq_self (by omega) (by omega)]
  · intro h
    unfold Semaphore.signal
    have hw : i32wrap (s.count + 1) = -(2 ^ 31) := by
      rw [h]
      decide
    rw [hw]
    norm_num

theorem C5_semaphore_wait_signal_witness :
    Semaphore.wait ⟨1, ∅⟩ = (true, ⟨1 - 1, ∅⟩) :=
  ((C5_semaphore_wait_signal ⟨1, ∅⟩ (by decide) (by decide)).2.2.2.2.1) (by decide)

/-- C8: `check_and_pop_if_exists(id)` returns `true` iff `id` was in the
wait queue; afterwards `id` is no longer in the queue, every other
identity's membership is unchanged, and on an empty queue the call is an
idempotent no-op returning `false`. -/
theorem C8_check_and_pop_correct (s : Semaphore) (id : Name) :
    ((s.check_and_pop_if_exists id).1 = true ↔ id ∈ s.queue) ∧
    id ∉ ((s.check_and_pop_if_exists id).2).queue ∧
    (∀ m : Name, m ≠ id →
      (m ∈ ((s.check_and_pop_if_exists id).2).queue ↔ m ∈ s.queue)) ∧
    (s.queue = ∅ → s.check_and_pop_if_exists id = (false, s)) := by
  unfold Semaphore.check_and_pop_if_exists
  refine ⟨by simp, by simp, ?_, ?_⟩
  · intro m hm
    simp [Finset.mem_erase, hm]
  · intro h
    cases s
    simp_all

theorem C8_check_and_pop_correct_witness :
    Semaphore.check_and_pop_if_exists ⟨1, ∅⟩ 0 = (false, ⟨1, ∅⟩) :=
  (C8_check_and_pop_correct ⟨1, ∅⟩ 0).2.2.2 rfl

/-- C10: `wait` and `signal` never modify the wait queue (in particular
`signal` wakes no waiter), and `check_and_pop_if_exists` and
`add_to_wait_queue` never modify the counter. -/
theorem C10_state_separation (s : Semaphore) (id : Name) :
    ((s.wait).2).queue = s.queue ∧
    ((s.signal).2).queue = s.queue ∧
    ((s.check_and_pop_if_exists id).2).count = s.count ∧
    (∀ s' : Semaphore, s.add_to_wait_queue id = Except.ok s' → s'.count = s.count) := by
  refine ⟨?_, rfl, rfl, ?_⟩
  · unfold Semaphore.wait
    split <;> rfl
  · intro s' h
    unfold Semaphore.add_to_wait_queue at h
    dsimp only at h
    split at h
    · cases h
      rfl
    · cases h

theorem C10_state_separation_witness :
    (Semaphore.mk 1 (insert 0 {0})).count = (Semaphore.mk 1 {0}).count :=
  (C10_state_separation ⟨1, {0}⟩ 0).2.2.2 ⟨1, insert 0 {0}⟩ (by decide)

theorem allocState_next (a : BootInfoFrameAllocator) (n : Nat) :
    (a.allocState n).next = a.next + n ∧ (a.allocState n).memory_map = a.memory_map := by
  induction n with
  | zero => exact ⟨rfl, rfl⟩
  | succ k ih =>
    unfold BootInfoFrameAllocator.allocState BootInfoFrameAllocator.allocate_frame
    dsimp only
    rw [ih.1, ih.2]
    exact ⟨rfl, rfl⟩

theorem allocResult_eq_get (a : BootInfoFrameAllocator) (n : Nat) :
    a.allocResult n =
      (BootInfoFrameAllocator.usable_frames a.memory_map).get? (a.next + n) := by
  unfold BootInfoFrameAllocator.allocResult BootInfoFrameAllocator.allocate_frame
  rw [(allocState_next a n).1, (allocState_next a n).2]

/-- C3 counterexample: on the map
`[{0,4096,usable},{4096,8192,reserved},{8192,16384,usable}]` the third
call does NOT report exhaustion — the second usable region holds two
frames, so the third call returns the frame at 12288. -/
theorem C3_third_call_counterexample :
    (BootInfoFrameAllocator.init exampleMap).allocResult 2 = some 12288 ∧
    ¬ ((BootInfoFrameAllocator.init exampleMap).allocResult 2 = none) := by
  constructor
  · decide
  · decide

/-- C3 (amended): on the map
`[{0,4096,usable},{4096,8192,reserved},{8192,16384,usable}]` successive
`allocate_frame` calls return the frames at 0, 8192 and 12288, and the
fourth call reports exhaustion. -/
theorem C3_bump_allocation_sequence :
    (BootInfoFrameAllocator.init exampleMap).allocResult 0 = some 0 ∧
    (BootInfoFrameAllocator.init exampleMap).allocResult 1 = some 8192 ∧
    (BootInfoFrameAllocator.init exampleMap).allocResult 2 = some 12288 ∧
    (BootInfoFrameAllocator.init exampleMap).allocResult 3 = none := by
  refine ⟨by decide, by decide, by decide, by decide⟩

/-- C4 counterexample: a call that reports exhaustion does NOT leave the
allocator unchanged — on an empty memory map `allocate_frame` returns
`None` yet still advances the cursor from 0 to 1. -/
theorem C4_exhausted_call_counterexample :
    ((BootInfoFrameAllocator.init ⟨[]⟩).allocate_frame).1 = none ∧
    ((BootInfoFrameAllocator.init ⟨[]⟩).allocate_frame).2.next = 1 ∧
    ¬ (((BootInfoFrameAllocator.init ⟨[]⟩).allocate_frame).2 =
        BootInfoFrameAllocator.init ⟨[]⟩) := by
  refine ⟨by decide, by decide, by decide⟩

/-- C4 (amended): the cursor `next` is the only mutable field and it is
advanced by exactly 1 on EVERY `allocate_frame` call, successful or not;
the memory-map reference is never changed. -/
theorem C4_cursor_advances_every_call (a : BootInfoFrameAllocator) :
    ((a.allocate_frame).2).next = a.next + 1 ∧
    ((a.allocate_frame).2).memory_map = a.memory_map := by
  exact ⟨rfl, rfl⟩

/-- C9: exhaustion is permanent: `EmptyFrameAllocator::allocate_frame`
always returns `None`, and once a `BootInfoFrameAllocator` call returns
`None` every later call does too, because the cursor only grows and the
usable-frame sequence is a fixed function of the immutable memory map. -/
theorem C9_exhaustion_permanent :
    (∀ a : EmptyFrameAllocator, (a.allocate_frame).1 = none) ∧
    (∀ (a : BootInfoFrameAllocator) (i j : Nat), i ≤ j →
      a.allocResult i = none → a.allocResult j = none) := by
  constructor
  · intro a
    rfl
  · intro a i j hij hi
    rw [allocResult_eq_get] at hi ⊢
    rw [List.get?_eq_none] at hi ⊢
    omega

theorem C9_exhaustion_permanent_witness :
    (BootInfoFrameAllocator.init ⟨[]⟩).allocResult 1 = none :=
  C9_exhaustion_permanent.2 (BootInfoFrameAllocator.init ⟨[]⟩) 0 1 (by decide) (by decide)

theorem stepBy4096_aligned (s e : Nat) :
    stepBy4096 (s * 4096) (e * 4096) =
      (List.range (e - s)).map (fun i => s * 4096 + 4096 * i) := by
  unfold stepBy4096
  have hc : (e * 4096 - s * 4096 + 4095) / 4096 = e - s := by omega
  rw [hc]

theorem usable_frames_eq (m : MemoryMap) :
    BootInfoFrameAllocator.usable_frames m =
      ((m.regions.filter (fun r => r.region_type = MemoryRegionType.Usable)).map
        (fun r =>
          (List.range (r.range.end_frame_number - r.range.start_frame_number)).map
            (fun i => r.range.start_frame_number * 4096 + 4096 * i))).flatten := by
  unfold BootInfoFrameAllocator.usable_frames
  rw [List.map_flatten]
  congr 1
  rw [List.map_map]
  apply List.map_congr_left
  intro r _
  show List.map containing_address (stepBy4096 r.range.start_addr r.range.end_addr) = _
  unfold FrameRange.start_addr FrameRange.end_addr
  rw [stepBy4096_aligned, List.map_map]
  apply List.map_congr_left
  intro i _
  show containing_address (r.range.start_frame_number * 4096 + 4096 * i) = _
  unfold containing_address
  omega

theorem usable_frames_pairwise (m : MemoryMap) (h : m.sortedUsable) :
    (BootInfoFrameAllocator.usable_frames m).Pairwise (· < ·) := by
  rw [usable_frames_eq, List.pairwise_flatten]
  constructor
  · intro l hl
    rw [List.mem_map] at hl
    obtain ⟨r, _, rfl⟩ := hl
    rw [List.pairwise_map]
    refine List.Pairwise.imp ?_ (List.pairwise_lt_range _)
    intro i j hij
    omega
  · rw [List.pairwise_map]
    refine List.Pairwise.imp ?_ h
    intro r r' hrr x hx y hy
    rw [List.mem_map] at hx hy
    obtain ⟨i, hi, rfl⟩ := hx
    obtain ⟨j, hj, rfl⟩ := hy
    rw [List.mem_range] at hi hj
    omega

theorem pairwise_get?_lt {l : List Nat} (h : l.Pairwise (· < ·)) {i j x y : Nat}
    (hij : i < j) (hx : l.get? i = some x) (hy : l.get? j = some y) : x < y := by
  rw [List.get?_eq_some] at hx hy
  obtain ⟨hi, rfl⟩ := hx
  obtain ⟨hj, rfl⟩ := hy
  exact List.pairwise_iff_get.mp h ⟨i, hi⟩ ⟨j, hj⟩ (Fin.mk_lt_mk.mpr hij)

/-- C6 counterexample: on a memory map whose usable regions are out of
address order (`[{8192,16384,usable},{0,4096,usable}]`) two consecutive
successful allocations return 12288 and then 0, so the later frame's
address is not strictly greater than the earlier one's. -/
theorem C6_unordered_map_counterexample :
    (BootInfoFrameAllocator.init unorderedMap).allocResult 1 = some 12288 ∧
    (BootInfoFrameAllocator.init unorderedMap).allocResult 2 = some 0 ∧
    ¬ (12288 < 0) := by
  refine ⟨by decide, by decide, by decide⟩

/-- C6 (amended): provided the memory map's usable regions appear in
increasing, non-overlapping address order (as the bootloader provides
them), allocation addresses are strictly monotone: whenever an earlier
call and a later call both return a frame, the later frame's address is
strictly greater, so no frame is ever returned twice; the allocator has no
freeing operation. -/
theorem C6_monotonic_allocation (a : BootInfoFrameAllocator)
    (hs : a.memory_map.sortedUsable) (i j x y : Nat) (hij : i < j)
    (hx : a.allocResult i = some x) (hy : a.allocResult j = some y) :
    x < y := by
  rw [allocResult_eq_get] at hx hy
  exact pairwise_get?_lt (usable_frames_pairwise _ hs) (by omega) hx hy

theorem C6_monotonic_allocation_witness : (0 : Nat) < 8192 :=
  C6_monotonic_allocation (BootInfoFrameAllocator.init exampleMap) (by decide)
    0 1 0 8192 (by decide) (by decide) (by decide)

/-- C7: `_translate_addr` walks exactly the four paging levels from the
top-level table following each level's index bits, returns "not mapped"
(`None`) when a level's entry is not present, panics on a huge/large page,
and otherwise returns the final frame's start address plus the page offset
— i.e. it coincides with the level-by-level specification
`translate_spec` on every memory, top-level table and address. -/
theorem C7_translate_addr_matches_spec (mem : PhysMem) (l4 addr : Nat) :
    _translate_addr mem l4 addr = translate_spec mem l4 addr := by
  unfold _translate_addr translate_spec
  rcases h4 : (mem l4 (p4_index addr)).toFrame with e4 | t3
  · cases e4 <;> simp [walkLoop, h4]
  · rcases h3 : (mem t3 (p3_index addr)).toFrame with e3 | t2
    · cases e3 <;> simp [walkLoop, h4, h3]
    · rcases h2 : (mem t2 (p2_index addr)).toFrame with e2 | t1
      · cases e2 <;> simp [walkLoop, h4, h3, h2]
      · rcases h1 : (mem t1 (p1_index addr)).toFrame with e1 | f
        · cases e1 <;> simp [walkLoop, h4, h3, h2, h1]
        · simp [walkLoop, h4, h3, h2, h1]

end NoIdeaOS
